import Mathlib

/-!
# Verification of the Twinkly SignalRGB integration (src/Twinkly.js, v1.5.9-parse-fix)

Shallow embedding of the device-communication and power-state engine:
the CRC-32 change-detection gate, the generation-3 UDP frame builder and
its 900-byte chunking loop, the render / idle / shutdown state machine,
the LED-mode health check, and the layout normalization.

Machine integers are modelled as `Nat` with explicit `% 2^w` where JS
typed-array truncation matters; timestamps are `Int` (milliseconds);
the FPS limiter's `1000 / limit` division is modelled exactly over `ℚ`
(for integer millisecond deltas the double-precision comparison in the
source and the exact rational comparison agree).
-/

namespace Twinkly

/-! ## CRC-32 (source: `CRC_TABLE` initializer and `crc32_u8`) -/

/-- One entry of the 256-entry CRC-32 table: eight rounds of
`c = (c & 1) ? 0xEDB88320 ^ (c >>> 1) : (c >>> 1)` starting from the index.
All values stay below `2^32`, so `>>> 1` is `/ 2` and `^` is `Nat.xor`. -/
def crcTableEntry (i : Nat) : Nat :=
  (List.range 8).foldl
    (fun c _ => if c % 2 = 1 then Nat.xor 0xEDB88320 (c / 2) else c / 2) i

/-- `crc32_u8(buf)`: `crc = 0 ^ (-1)` (i.e. `0xFFFFFFFF` unsigned), then for each
byte `crc = (crc >>> 8) ^ CRC_TABLE[(crc ^ b) & 0xFF]`, finally `(crc ^ (-1)) >>> 0`.
Modelled unsigned throughout: the JS signed intermediate values have the same
low 32 bits. -/
def crc32_u8 (buf : List Nat) : Nat :=
  Nat.xor
    (buf.foldl
      (fun crc b => Nat.xor (crc / 256) (crcTableEntry ((Nat.xor crc b) % 256)))
      0xFFFFFFFF)
    0xFFFFFFFF

/-! ## UDP frame builders (source: `sendGen1RTFrame` .. `sendGen3RTFrame`) -/

/-- A UDP datagram as handed to `udp.send(controller.ip, 7777, ...)`, tagged with
the generation of the encoder that built it. -/
structure Datagram where
  gen : Nat
  payload : List Nat
deriving DecidableEq, Repr

/-- Generation-1 frame: `[0x01][authToken][numberOfLEDs][RGBData]`. -/
def sendGen1RTFrame (authToken numberOfLEDs RGBData : List Nat) : Datagram :=
  ⟨1, [0x01] ++ authToken ++ numberOfLEDs ++ RGBData⟩

/-- Generation-2 frame: `[0x02][authToken][numberOfLEDs][RGBData]`. -/
def sendGen2RTFrame (authToken numberOfLEDs RGBData : List Nat) : Datagram :=
  ⟨2, [0x02] ++ authToken ++ numberOfLEDs ++ RGBData⟩

/-- Generation-3 frame: `[0x03][authToken][0x00][0x00][packetIDX][RGBDataChunk]`.
`packet[offset] = packetIDX` stores into a `Uint8Array`, which truncates the
index to its low byte, hence `packetIDX % 256`. -/
def sendGen3RTFrame (authToken : List Nat) (packetIDX : Nat) (RGBDataChunk : List Nat) :
    Datagram :=
  ⟨3, [0x03] ++ authToken ++ [0x00, 0x00] ++ [packetIDX % 256] ++ RGBDataChunk⟩

/-- Worker for the chunking loop of `sendColors`, structurally recursive on a
fuel that bounds the number of remaining bytes (each iteration consumes at
least one byte, so fuel `buf.length` never runs out). -/
def rtChunksGo (authToken : List Nat) : Nat → List Nat → Nat → List Datagram
  | _, [], _ => []
  | 0, _ :: _, _ => []
  | fuel + 1, b :: rest, packetIDX =>
      sendGen3RTFrame authToken packetIDX ((b :: rest).take 900) ::
        rtChunksGo authToken fuel ((b :: rest).drop 900) (packetIDX + 1)

/-- The chunking loop of `sendColors`: slices of at most `MAX_CHUNK = 900` bytes,
each sent as a generation-3 frame with an incrementing packet index.
`subarray(offset, min(offset+900, len))` at the running offset is `take 900` of
the progressively dropped buffer. -/
def rtChunks (authToken : List Nat) (buf : List Nat) (packetIDX : Nat) : List Datagram :=
  rtChunksGo authToken buf.length buf packetIDX

/-! ## Settings and runtime state

`Config` holds the user-configurable parameters (`ControllableParameters`) plus
the per-session device data the send path reads (`vLedPositions`,
`bytesPerLED`, `decodedAuthToken`) and the external color source
(`device.color`).  `State` holds the module-level mutable runtime variables. -/

structure Config where
  startMode : String
  LightingMode : String
  forcedColor : String
  shutdownColor : String
  keepOffOnShutdown : Bool
  sendBlackOnShutdown : Bool
  immediatePauseOff : Bool
  offWhenIdle : Bool
  idleOffSeconds : Nat
  fpsLimit : Nat
  keepaliveSeconds : Nat
  bytesPerLED : Nat
  vLedPositions : List (Nat × Nat)
  decodedAuthToken : List Nat
  colorAt : Nat → Nat → Nat × Nat × Nat

structure State where
  rtActive : Bool
  offForced : Bool
  lastFrameMs : Int
  lastFrameSentAt : Int
  lastEnsureRt : Int
  idleTimerOn : Bool
  forcedDirty : Bool
  lastForcedHex : String
  forcedRgb : Nat × Nat × Nat
  shutdownRgb : Nat × Nat × Nat
  lastCRC : Int
  cachedIdleOffSeconds : Nat
  rgbAllocated : Bool
  rgbLedCount : Nat
  rgbBufLen : Nat
deriving DecidableEq, Repr

/-! ## Helpers -/

/-- `Math.max(10, Math.min(120, Number(fpsLimit) || 45))`; `|| 45` replaces a
falsy (zero) value. -/
def fpsClamp (fpsLimit : Nat) : Nat :=
  max 10 (min 120 (if fpsLimit = 0 then 45 else fpsLimit))

/-- `shouldSendFrame`: returns whether to send and the new `_lastFrameSentAt`
(updated to `now` exactly when the frame goes through).  The source compares
the integer millisecond delta against `minDeltaMs = 1000 / limit`; since
`limit > 0`, `delta ≥ 1000 / limit` is equivalent to `delta * limit ≥ 1000`,
which is the exact integer form used here (the ℚ-division characterization is
proved below). -/
def shouldSendFrame (fpsLimit : Nat) (now lastFrameSentAt : Int) : Bool × Int :=
  if (now - lastFrameSentAt) * (fpsClamp fpsLimit : Int) ≥ 1000 then
    (true, now)
  else
    (false, lastFrameSentAt)

/-- `Math.max(2, Number(idleOffSeconds) || 5)` — the cached idle-off seconds. -/
def cachedIdleOffSecondsOf (idleOffSeconds : Nat) : Nat :=
  max 2 (if idleOffSeconds = 0 then 5 else idleOffSeconds)

/-- One hex digit of `HEX_REGEX` (case-insensitive `[a-f\d]`). -/
def hexDigitVal (c : Char) : Option Nat :=
  if '0' ≤ c ∧ c ≤ '9' then some (c.toNat - '0'.toNat)
  else if 'a' ≤ c ∧ c ≤ 'f' then some (c.toNat - 'a'.toNat + 10)
  else if 'A' ≤ c ∧ c ≤ 'F' then some (c.toNat - 'A'.toNat + 10)
  else none

/-- `hexToRgb`: parse `#RRGGBB` (leading `#` optional); any non-match yields
`[0,0,0]`. -/
def hexToRgb (hex : String) : Nat × Nat × Nat :=
  let cs0 := hex.toList
  let cs := if cs0.head? = some '#' then cs0.drop 1 else cs0
  match cs with
  | [a, b, c, d, e, f] =>
      match hexDigitVal a, hexDigitVal b, hexDigitVal c,
            hexDigitVal d, hexDigitVal e, hexDigitVal f with
      | some a1, some b1, some c1, some d1, some e1, some f1 =>
          (16 * a1 + b1, 16 * c1 + d1, 16 * e1 + f1)
      | _, _, _, _, _, _ => (0, 0, 0)
  | _ => (0, 0, 0)

/-! ## Persistent RGB buffer (source: `ensureRgbBuffer`, `fillRgbBuffer`) -/

/-- `(bytesPerLED === 4) ? 4 : 3`. -/
def strideOf (cfg : Config) : Nat :=
  if cfg.bytesPerLED = 4 then 4 else 3

/-- `ensureRgbBuffer`: reallocate (and invalidate `_lastCRC` to `-1`) whenever
the buffer is missing or its LED count / byte length no longer match. -/
def ensureRgbBuffer (cfg : Config) (s : State) : State :=
  let needCount := cfg.vLedPositions.length
  let needBytes := needCount * strideOf cfg
  if !s.rgbAllocated || s.rgbLedCount != needCount || s.rgbBufLen != needBytes then
    { s with rgbAllocated := true, rgbLedCount := needCount, rgbBufLen := needBytes,
             lastCRC := -1 }
  else s

/-- The byte contents written by `fillRgbBuffer`'s loop: per LED, stride-4
devices get `[0x00, R, G, B]`, stride-3 devices `[R, G, B]`; the color source is
the shutdown color, the forced color (in `Forced` mode), or `device.color` at
the LED's position.  `Uint8Array` stores truncate to the low byte. -/
def fillBytes (cfg : Config) (shutdownRgb forcedRgb : Nat × Nat × Nat)
    (useShutdownColor : Bool) : List Nat :=
  let colorSource : Option (Nat × Nat × Nat) :=
    if useShutdownColor then some shutdownRgb
    else if cfg.LightingMode = "Forced" then some forcedRgb
    else none
  (cfg.vLedPositions.map (fun p =>
    let col := colorSource.getD (cfg.colorAt p.1 p.2)
    if strideOf cfg = 4 then
      [0x00, col.1 % 256, col.2.1 % 256, col.2.2 % 256]
    else
      [col.1 % 256, col.2.1 % 256, col.2.2 % 256])).flatten

/-- `fillRgbBuffer`: run `ensureRgbBuffer`, then rebuild the buffer in place. -/
def fillRgbBuffer (cfg : Config) (s : State) (useShutdownColor : Bool) :
    State × List Nat :=
  let s1 := ensureRgbBuffer cfg s
  (s1, fillBytes cfg s1.shutdownRgb s1.forcedRgb useShutdownColor)

/-- `sendColors(useShutdownColor, allowSkipSame)`: fill the buffer; with change
detection enabled, skip (returning `false`, no datagrams) when the CRC equals
`_lastCRC`, else record the CRC; then emit the 900-byte gen-3 chunks.
Returns (new state, sent?, datagrams). -/
def sendColors (cfg : Config) (s : State) (useShutdownColor allowSkipSame : Bool) :
    State × Bool × List Datagram :=
  let fb := fillRgbBuffer cfg s useShutdownColor
  let s1 := fb.1
  let buf := fb.2
  if allowSkipSame then
    let crc := crc32_u8 buf
    if (crc : Int) = s1.lastCRC then (s1, false, [])
    else ({ s1 with lastCRC := (crc : Int) }, true,
          rtChunks cfg.decodedAuthToken buf 0)
  else
    (s1, true, rtChunks cfg.decodedAuthToken buf 0)

/-! ## State-machine steps (source: `Render`, `enforceIdleOff`, `Shutdown`) -/

/-- One frame-send attempt: records the value of `_offForced` at the moment
`sendColors` was invoked, whether the shutdown color was used, whether the
call transmitted, and the datagrams that went out. -/
structure SendRec where
  offForcedAtSend : Bool
  usedShutdownColor : Bool
  sent : Bool
  datagrams : List Datagram
deriving DecidableEq, Repr

/-- The `try` block of `Render()`: `Forced` mode sends unconditionally on a
color change (`sendColors(false, false)`), else goes through the CRC-gated
keepalive path when `ka > 0`; `Canvas` mode always takes the CRC-gated path.
`ka = Math.max(0, Number(keepaliveSeconds) || 0)` is `cfg.keepaliveSeconds`
under the `Nat` model.  Returns (state, `sent`, send attempts). -/
def renderTryBlock (cfg : Config) (colorChanged : Bool) (s3 : State) :
    State × Bool × List SendRec :=
  if cfg.LightingMode == "Forced" then
    if colorChanged then
      let r := sendColors cfg s3 false false
      ({ r.1 with forcedDirty := false, lastForcedHex := cfg.forcedColor },
       r.2.1, [⟨s3.offForced, false, r.2.1, r.2.2⟩])
    else if decide (cfg.keepaliveSeconds > 0) then
      let r := sendColors cfg s3 false true
      (r.1, r.2.1, [⟨s3.offForced, false, r.2.1, r.2.2⟩])
    else (s3, false, [])
  else
    let r := sendColors cfg s3 false true
    (r.1, r.2.1, [⟨s3.offForced, false, r.2.1, r.2.2⟩])

/-- The part of `Render()` past the `if (_offForced) return;` guard, on the
flag-reset state `s1`.  `checkConnectionStatusNonBlocking` performs only HTTP
traffic and is not modelled (it emits no UDP). -/
def renderBody (cfg : Config) (now : Int) (s1 : State) : State × List SendRec :=
  let colorChanged := s1.forcedDirty || (cfg.forcedColor != s1.lastForcedHex)
  if cfg.LightingMode == "Forced" &&
      (!colorChanged && cfg.keepaliveSeconds == 0) then (s1, [])
  else
    -- re-enable RT mode at most once per ENSURE_RT_INTERVAL_MS = 900ms
    let s2 :=
      if !s1.rtActive && decide (now - s1.lastEnsureRt > 900) then
        { s1 with rtActive := true, lastEnsureRt := now }
      else s1
    if !s2.rtActive then (s2, [])
    else
      let p := shouldSendFrame cfg.fpsLimit now s2.lastFrameSentAt
      let s3 := { s2 with lastFrameSentAt := p.2 }
      if !p.1 then (s3, [])
      else
        let res := renderTryBlock cfg colorChanged s3
        if res.2.1 then
          ({ res.1 with lastFrameMs := now, idleTimerOn := true }, res.2.2)
        else (res.1, res.2.2)

/-- `Render()`: the per-tick algorithm. -/
def Render (cfg : Config) (now : Int) (s0 : State) : State × List SendRec :=
  -- WAKE-FIX: reset the idle-off flag unless the user wants the device off.
  let s1 := if cfg.startMode != "Off" then { s0 with offForced := false } else s0
  if s1.offForced then (s1, []) else renderBody cfg now s1

/-- `enforceIdleOff()`: immediate-pause branch (elapsed > 300ms) and fallback
idle-seconds branch; each fires only when not already forced off, sends one
shutdown-color frame bypassing change detection, and enters `ForcedOff`. -/
def enforceIdleOff (cfg : Config) (now : Int) (s : State) : State × List SendRec :=
  if cfg.immediatePauseOff && (!s.offForced && decide (now - s.lastFrameMs > 300)) then
    let r := sendColors cfg s true false
    ({ r.1 with rtActive := false, offForced := true },
     [⟨s.offForced, true, r.2.1, r.2.2⟩])
  else if cfg.offWhenIdle &&
      (!s.offForced &&
        decide (now - s.lastFrameMs > (s.cachedIdleOffSeconds : Int) * 1000)) then
    let r := sendColors cfg s true false
    ({ r.1 with rtActive := false, offForced := true },
     [⟨s.offForced, true, r.2.1, r.2.2⟩])
  else (s, [])

/-- `Shutdown(suspend)`: when configured to force off, optionally send one
black/idle frame (change detection bypassed, and `_offForced` NOT consulted),
then power off and clear the idle timer. -/
def Shutdown (cfg : Config) (s : State) : State × List SendRec :=
  if !cfg.keepOffOnShutdown then (s, [])
  else
    let r : State × List SendRec :=
      if cfg.sendBlackOnShutdown then
        let r := sendColors cfg s true false
        (r.1, [⟨s.offForced, true, r.2.1, r.2.2⟩])
      else (s, [])
    ({ r.1 with rtActive := false, offForced := true, idleTimerOn := false }, r.2)

/-! ## UI change hooks relevant to the claims -/

/-- `onforcedColorChanged()`. -/
def onforcedColorChanged (cfg : Config) (s : State) : State :=
  { s with forcedRgb := hexToRgb cfg.forcedColor, forcedDirty := true,
           lastForcedHex := cfg.forcedColor }

/-- `onidleOffSecondsChanged()`. -/
def onidleOffSecondsChanged (cfg : Config) (s : State) : State :=
  { s with cachedIdleOffSeconds := cachedIdleOffSecondsOf cfg.idleOffSeconds }

/-! ## Event traces -/

/-- External events that can drive the machine: render ticks, idle-check timer
ticks, and the shutdown lifecycle hook. -/
inductive Event where
  | render (now : Int)
  | idleCheck (now : Int)
  | shutdown
deriving DecidableEq, Repr

/-- Dispatch one event. -/
def stepEvent (cfg : Config) (s : State) : Event → State × List SendRec
  | Event.render now => Render cfg now s
  | Event.idleCheck now => enforceIdleOff cfg now s
  | Event.shutdown => Shutdown cfg s

/-- Run a sequence of events, collecting every send attempt tagged with the
event that produced it. -/
def runEvents (cfg : Config) (s : State) : List Event → State × List (Event × SendRec)
  | [] => (s, [])
  | ev :: rest =>
      let r := stepEvent cfg s ev
      let rr := runEvents cfg r.1 rest
      (rr.1, r.2.map (fun x => (ev, x)) ++ rr.2)

/-- The in-memory buffer already matches the current layout, so
`ensureRgbBuffer` will not reallocate (and will not reset `_lastCRC`). -/
def bufferMatches (cfg : Config) (s : State) : Prop :=
  s.rgbAllocated = true ∧
  s.rgbLedCount = cfg.vLedPositions.length ∧
  s.rgbBufLen = cfg.vLedPositions.length * strideOf cfg

instance (cfg : Config) (s : State) : Decidable (bufferMatches cfg s) :=
  inferInstanceAs (Decidable (_ ∧ _ ∧ _))

/-! ## LED-mode health check (source: `TwinklyProtocol.fetchLEDMode`) -/

/-- The `statusCodes` table. -/
def statusCodes (code : Nat) : Option String :=
  if code = 1000 then some "Ok"
  else if code = 1001 then some "Error"
  else if code = 1101 then some "Invalid Argument"
  else if code = 1102 then some "Error"
  else if code = 1103 then some "Error, Value too long or missing required object key?"
  else if code = 1104 then some "Error, Malformed Json?"
  else if code = 1105 then some "Invalid Argument Key"
  else if code = 1107 then some "Ok?"
  else if code = 1108 then some "Ok?"
  else if code = 1205 then some "Error With Firmware Upgrade"
  else none

/-- The parsed body of `GET /xled/v1/led/mode`; either field may be absent. -/
structure LedModePacket where
  code : Option Nat
  mode : Option String
deriving DecidableEq, Repr

/-- An `XMLHttpRequest` result for the LED-mode endpoint.  `response` is
`none` when the body is empty/absent (falsy), `some none` when present but
malformed (`JSON.parse` throws), and `some (some p)` when it parses. -/
structure XhrLedMode where
  readyState : Nat
  status : Nat
  response : Option (Option LedModePacket)
deriving DecidableEq, Repr

/-- The status computed by `fetchLEDMode`'s response handler (the value passed
to the health-check callback).  `none` models the `readyState !== 4` early
return (no status produced).  `packetStatus` starts as `"Error"`; a parsed body
maps its code through `statusCodes` (`|| "Unknown"`) and any mode other than
`"rt"` overrides with `"Incorrect Mode"`; a parse failure falls back to
`"Error"` via the catch block. -/
def fetchLEDMode (xhr : XhrLedMode) : Option String :=
  if xhr.readyState ≠ 4 then none
  else some (
    if xhr.status = 200 then
      match xhr.response with
      | some (some packet) =>
          let st := match packet.code with
            | some c => (statusCodes c).getD "Unknown"
            | none => "Unknown"
          if packet.mode ≠ some "rt" then "Incorrect Mode" else st
      | some none => "Error"      -- JSON.parse threw
      | none => "Error"           -- empty body: packetStatus keeps its default
    else "Error")

/-! ## Layout normalization (source: `fetchDeviceLayoutType`,
`configureDeviceLayout`) -/

/-- One coordinate of `GET /xled/v1/led/layout/full`. -/
structure LayoutCoordinate where
  x : ℚ
  y : ℚ
  z : ℚ
deriving DecidableEq, Repr

/-- The layout packet: its `source` tag and the coordinate list. -/
structure LayoutPacket where
  source : String
  coordinates : List LayoutCoordinate
deriving DecidableEq, Repr

/-- `configureDeviceLayout(packet, xMin, xMax, yMin, yMax)`: normalize each
native coordinate to `[0,1]` by the (zero-guarded) range, scale by
`10 × scale`, and `Math.round` to the grid; returns the positions and the
reported canvas size `(10*xScale+1, 10*yScale+1)`.  `Math.round` is `⌊x+1/2⌋`,
which is Mathlib's `round` on `ℚ`. -/
def configureDeviceLayout (xScale yScale : Nat) (packet : LayoutPacket)
    (xMin xMax yMin yMax : ℚ) : List (Int × Int) × (Nat × Nat) :=
  let width := 10 * xScale + 1
  let height := 10 * yScale + 1
  let xRange : ℚ := if xMax - xMin = 0 then 1 else xMax - xMin
  let yRange : ℚ := if yMax - yMin = 0 then 1 else yMax - yMin
  let useZ := packet.source == "3d"
  let scaledWidth : ℚ := 10 * xScale
  let scaledHeight : ℚ := 10 * yScale
  let pos := packet.coordinates.map (fun c =>
    (round ((c.x - xMin) / xRange * scaledWidth),
     round (((if useZ then c.z else c.y) - yMin) / yRange * scaledHeight)))
  (pos, (width, height))

/-- `fetchDeviceLayoutType`'s response handler: collect the native x values and
depth values (y for 2-D, z for 3-D), take their minima/maxima (`Math.min` /
`Math.max` over the spread — meaningful only for a nonempty list, hence
`none` on an empty coordinate set), and hand off to `configureDeviceLayout`. -/
def fetchDeviceLayoutType (xScale yScale : Nat) (packet : LayoutPacket) :
    Option (List (Int × Int) × (Nat × Nat)) :=
  match packet.coordinates with
  | [] => none
  | c0 :: _ =>
      let xVals := packet.coordinates.map (·.x)
      let yVals := packet.coordinates.map
        (fun c => if packet.source == "3d" then c.z else c.y)
      let x0 := if packet.source == "3d" then c0.z else c0.y
      let xMax := xVals.foldl max c0.x
      let xMin := xVals.foldl min c0.x
      let yMax := yVals.foldl max x0
      let yMin := yVals.foldl min x0
      some (configureDeviceLayout xScale yScale packet xMin xMax yMin yMax)

/-! ## Concrete instances used to exercise the model -/

/-- A one-LED RGB device with the default settings and an empty auth token. -/
def demoConfig : Config :=
  { startMode := "RT (Live)", LightingMode := "Canvas", forcedColor := "#FF0000",
    shutdownColor := "#000000", keepOffOnShutdown := true, sendBlackOnShutdown := true,
    immediatePauseOff := true, offWhenIdle := true, idleOffSeconds := 5,
    fpsLimit := 45, keepaliveSeconds := 0, bytesPerLED := 3,
    vLedPositions := [(0, 0)], decodedAuthToken := [],
    colorAt := fun _ _ => (1, 2, 3) }

/-- A matching runtime state: active, buffer allocated for one RGB LED. -/
def demoState : State :=
  { rtActive := true, offForced := false, lastFrameMs := 0, lastFrameSentAt := 0,
    lastEnsureRt := 0, idleTimerOn := false, forcedDirty := false,
    lastForcedHex := "#FF0000", forcedRgb := (255, 0, 0), shutdownRgb := (0, 0, 0),
    lastCRC := -1, cachedIdleOffSeconds := 5, rgbAllocated := true,
    rgbLedCount := 1, rgbBufLen := 3 }

/-- The demo device in `Forced` mode with forced color `#00FF00`. -/
def forcedDemoConfig : Config :=
  { demoConfig with
      LightingMode := "Forced",
      forcedColor := "#00FF00" }

/-- The demo state whose checksum cache records the CRC-32 of `[0, 255, 0]` —
exactly the buffer a `#00FF00` forced frame builds. -/
def forcedDemoState : State :=
  { demoState with lastCRC := (crc32_u8 [0, 255, 0] : Int) }

/-! ## Lemmas about the chunking loop -/

theorem rtChunksGo_congr (t : List Nat) :
    ∀ (f1 : Nat) (f2 : Nat) (buf : List Nat) (idx : Nat),
      buf.length ≤ f1 → buf.length ≤ f2 →
      rtChunksGo t f1 buf idx = rtChunksGo t f2 buf idx := by
  intro f1
  induction f1 with
  | zero =>
      intro f2 buf idx h1 _
      have hb : buf = [] := List.eq_nil_of_length_eq_zero (Nat.le_zero.mp h1)
      subst hb
      cases f2 <;> rfl
  | succ f ih =>
      intro f2 buf idx h1 h2
      cases buf with
      | nil => cases f2 <;> rfl
      | cons b rest =>
          cases f2 with
          | zero => simp at h2
          | succ f2' =>
              simp only [rtChunksGo]
              congr 1
              apply ih
              · simp only [List.length_drop, List.length_cons] at *
                omega
              · simp only [List.length_drop, List.length_cons] at *
                omega

theorem rtChunksGo_eq_rtChunks (t : List Nat) (fuel : Nat) (buf : List Nat) (idx : Nat)
    (h : buf.length ≤ fuel) : rtChunksGo t fuel buf idx = rtChunks t buf idx :=
  rtChunksGo_congr t fuel buf.length buf idx h le_rfl

@[simp] theorem rtChunks_nil (t : List Nat) (idx : Nat) : rtChunks t [] idx = [] := rfl

theorem rtChunks_cons (t : List Nat) (buf : List Nat) (idx : Nat) (h : buf ≠ []) :
    rtChunks t buf idx =
      sendGen3RTFrame t idx (buf.take 900) :: rtChunks t (buf.drop 900) (idx + 1) := by
  cases buf with
  | nil => exact absurd rfl h
  | cons b rest =>
      show rtChunksGo t ((b :: rest).length) (b :: rest) idx = _
      simp only [List.length_cons, rtChunksGo]
      congr 1
      apply rtChunksGo_eq_rtChunks
      simp only [List.length_drop, List.length_cons]
      omega

/-- The loop emits `ceil(len / 900)` datagrams. -/
theorem rtChunks_length (t : List Nat) :
    ∀ (n : Nat) (buf : List Nat) (idx : Nat), buf.length ≤ n →
      (rtChunks t buf idx).length = (buf.length + 899) / 900 := by
  intro n
  induction n with
  | zero =>
      intro buf idx h
      have hb : buf = [] := List.eq_nil_of_length_eq_zero (Nat.le_zero.mp h)
      subst hb; rfl
  | succ n ih =>
      intro buf idx h
      by_cases hb : buf = []
      · subst hb; rfl
      · rw [rtChunks_cons t buf idx hb, List.length_cons,
            ih (buf.drop 900) (idx + 1) (by simp only [List.length_drop]; omega)]
        have hlen : 0 < buf.length := List.length_pos.mpr hb
        simp only [List.length_drop]
        omega

/-- Datagram `i` of the loop is the gen-3 frame with packet index `idx + i`
carrying the `i`-th 900-byte slice. -/
theorem rtChunks_get? (t : List Nat) :
    ∀ (i : Nat) (buf : List Nat) (idx : Nat), 900 * i < buf.length →
      (rtChunks t buf idx).get? i =
        some (sendGen3RTFrame t (idx + i) ((buf.drop (900 * i)).take 900)) := by
  intro i
  induction i with
  | zero =>
      intro buf idx h
      have hb : buf ≠ [] := by
        intro hnil; subst hnil; simp at h
      rw [rtChunks_cons t buf idx hb]
      simp
  | succ i ih =>
      intro buf idx h
      have hb : buf ≠ [] := by
        intro hnil; subst hnil; simp at h
      rw [rtChunks_cons t buf idx hb]
      have hrec : 900 * i < (buf.drop 900).length := by
        simp only [List.length_drop]; omega
      simp only [List.get?_cons_succ, ih (buf.drop 900) (idx + 1) hrec,
        List.drop_drop]
      congr 2
      · omega
      · congr 2
        omega

/-- Every datagram the loop emits was built by the generation-3 encoder. -/
theorem rtChunks_mem (t : List Nat) :
    ∀ (n : Nat) (buf : List Nat) (idx : Nat) (d : Datagram), buf.length ≤ n →
      d ∈ rtChunks t buf idx →
      d.gen = 3 ∧ ∃ j chunk, d = sendGen3RTFrame t j chunk := by
  intro n
  induction n with
  | zero =>
      intro buf idx d h hd
      have hb : buf = [] := List.eq_nil_of_length_eq_zero (Nat.le_zero.mp h)
      subst hb; simp at hd
  | succ n ih =>
      intro buf idx d h hd
      by_cases hb : buf = []
      · subst hb; simp at hd
      · rw [rtChunks_cons t buf idx hb, List.mem_cons] at hd
        rcases hd with hd | hd
        · subst hd
          exact ⟨rfl, idx, buf.take 900, rfl⟩
        · exact ih (buf.drop 900) (idx + 1) d
            (by simp only [List.length_drop]; omega) hd

theorem rtChunks_ne_nil (t : List Nat) (buf : List Nat) (idx : Nat) (h : buf ≠ []) :
    rtChunks t buf idx ≠ [] := by
  rw [rtChunks_cons t buf idx h]
  exact List.cons_ne_nil _ _

/-! ## Lemmas about the buffer and `sendColors` -/

theorem ensureRgbBuffer_of_matches (cfg : Config) (s : State)
    (h : bufferMatches cfg s) : ensureRgbBuffer cfg s = s := by
  obtain ⟨h1, h2, h3⟩ := h
  simp [ensureRgbBuffer, h1, h2, h3]

@[simp] theorem ensureRgbBuffer_shutdownRgb (cfg : Config) (s : State) :
    (ensureRgbBuffer cfg s).shutdownRgb = s.shutdownRgb := by
  simp only [ensureRgbBuffer]
  split <;> rfl

@[simp] theorem ensureRgbBuffer_forcedRgb (cfg : Config) (s : State) :
    (ensureRgbBuffer cfg s).forcedRgb = s.forcedRgb := by
  simp only [ensureRgbBuffer]
  split <;> rfl

@[simp] theorem ensureRgbBuffer_offForced (cfg : Config) (s : State) :
    (ensureRgbBuffer cfg s).offForced = s.offForced := by
  simp only [ensureRgbBuffer]
  split <;> rfl

theorem bufferMatches_ensure (cfg : Config) (s : State) :
    bufferMatches cfg (ensureRgbBuffer cfg s) := by
  simp only [ensureRgbBuffer, bufferMatches]
  split <;> simp_all [bufferMatches]

/-- With change detection disabled, `sendColors` always transmits the freshly
built buffer and does not touch `_lastCRC` (beyond any `ensureRgbBuffer`
invalidation). -/
theorem sendColors_noskip (cfg : Config) (s : State) (u : Bool) :
    sendColors cfg s u false =
      (ensureRgbBuffer cfg s, true,
        rtChunks cfg.decodedAuthToken (fillBytes cfg s.shutdownRgb s.forcedRgb u) 0) := by
  simp [sendColors, fillRgbBuffer]

/-- With change detection enabled and a CRC hit, `sendColors` skips. -/
theorem sendColors_skip (cfg : Config) (s : State) (u : Bool)
    (hm : bufferMatches cfg s)
    (hcrc : (crc32_u8 (fillBytes cfg s.shutdownRgb s.forcedRgb u) : Int) = s.lastCRC) :
    sendColors cfg s u true = (s, false, []) := by
  simp [sendColors, fillRgbBuffer, ensureRgbBuffer_of_matches cfg s hm, hcrc]

/-- With change detection enabled and a CRC miss, `sendColors` transmits and
records the new checksum. -/
theorem sendColors_send (cfg : Config) (s : State) (u : Bool)
    (hm : bufferMatches cfg s)
    (hcrc : (crc32_u8 (fillBytes cfg s.shutdownRgb s.forcedRgb u) : Int) ≠ s.lastCRC) :
    sendColors cfg s u true =
      ({ s with lastCRC := (crc32_u8 (fillBytes cfg s.shutdownRgb s.forcedRgb u) : Int) },
       true,
       rtChunks cfg.decodedAuthToken (fillBytes cfg s.shutdownRgb s.forcedRgb u) 0) := by
  simp [sendColors, fillRgbBuffer, ensureRgbBuffer_of_matches cfg s hm, hcrc]

/-- A nonempty LED layout always yields a nonempty color buffer. -/
theorem fillBytes_ne_nil (cfg : Config) (a b : Nat × Nat × Nat) (u : Bool)
    (h : cfg.vLedPositions ≠ []) : fillBytes cfg a b u ≠ [] := by
  cases hp : cfg.vLedPositions with
  | nil => exact absurd hp h
  | cons p rest =>
      simp only [fillBytes, hp, List.map_cons, List.flatten]
      split <;> simp

/-! ## Lemmas about the state-machine steps -/

theorem renderTryBlock_offForcedAtSend (cfg : Config) (cc : Bool) (s3 : State)
    (r : SendRec) (hr : r ∈ (renderTryBlock cfg cc s3).2.2) :
    r.offForcedAtSend = s3.offForced := by
  simp only [renderTryBlock] at hr
  split at hr <;> (try split at hr) <;> (try split at hr) <;> simp_all

theorem renderBody_offForcedAtSend (cfg : Config) (now : Int) (s1 : State)
    (r : SendRec) (hr : r ∈ (renderBody cfg now s1).2) :
    r.offForcedAtSend = s1.offForced := by
  simp only [renderBody, apply_ite Prod.snd, ite_self] at hr
  split at hr
  · simp at hr
  · split at hr
    · split at hr
      · simp at hr
      · split at hr
        · simp at hr
        · rw [renderTryBlock_offForcedAtSend cfg _ _ r hr]
    · split at hr
      · simp at hr
      · split at hr
        · simp at hr
        · rw [renderTryBlock_offForcedAtSend cfg _ _ r hr]

/-- Any send attempt a render tick makes happens with `_offForced` clear. -/
theorem Render_offForcedAtSend (cfg : Config) (now : Int) (s0 : State) (r : SendRec)
    (hr : r ∈ (Render cfg now s0).2) : r.offForcedAtSend = false := by
  simp only [Render] at hr
  split at hr
  · exact (renderBody_offForcedAtSend cfg now _ r hr).trans rfl
  · split at hr
    · simp at hr
    next h1 =>
      rw [renderBody_offForcedAtSend cfg now _ r hr]
      simpa using h1

/-- Any send attempt an idle-check tick makes happens with `_offForced` clear. -/
theorem enforceIdleOff_offForcedAtSend (cfg : Config) (now : Int) (s : State)
    (r : SendRec) (hr : r ∈ (enforceIdleOff cfg now s).2) :
    r.offForcedAtSend = false := by
  simp only [enforceIdleOff] at hr
  split at hr <;> (try split at hr) <;> simp_all

/-- Trace-level form: across any event sequence, every send attempt made by a
render tick or an idle-check tick (i.e. by anything but the shutdown hook)
happens with `_offForced` clear. -/
theorem runEvents_offForcedAtSend (cfg : Config) :
    ∀ (events : List Event) (s : State) (ev : Event) (r : SendRec),
      (ev, r) ∈ (runEvents cfg s events).2 → ev ≠ Event.shutdown →
      r.offForcedAtSend = false := by
  intro events
  induction events with
  | nil =>
      intro s ev r hmem _
      simp [runEvents] at hmem
  | cons e rest ih =>
      intro s ev r hmem hne
      simp only [runEvents, List.mem_append, List.mem_map] at hmem
      rcases hmem with ⟨r', hr', heq⟩ | hmem
      · injection heq with he hrr
        subst he
        subst hrr
        cases e with
        | render now => exact Render_offForcedAtSend cfg now s r' hr'
        | idleCheck now => exact enforceIdleOff_offForcedAtSend cfg now s r' hr'
        | shutdown => exact absurd rfl hne
      · exact ih _ ev r hmem hne

/-- In `Forced` mode, when the forced color is dirty and the RT and FPS gates
pass, the render body performs exactly one unconditional send
(`sendColors(false, false)`), then clears the dirty flag and records the hex. -/
theorem renderBody_forced_change (cfg : Config) (now : Int) (s1 : State)
    (hmode : cfg.LightingMode = "Forced")
    (hcc : s1.forcedDirty = true)
    (hrt : s1.rtActive = true)
    (hfps : (now - s1.lastFrameSentAt) * (fpsClamp cfg.fpsLimit : Int) ≥ 1000) :
    renderBody cfg now s1 =
      ({ (sendColors cfg { s1 with lastFrameSentAt := now } false false).1 with
           forcedDirty := false, lastForcedHex := cfg.forcedColor,
           lastFrameMs := now, idleTimerOn := true },
       [⟨s1.offForced, false, true,
         (sendColors cfg { s1 with lastFrameSentAt := now } false false).2.2⟩]) := by
  have hmodeb : (cfg.LightingMode == "Forced") = true := by
    rw [beq_iff_eq]; exact hmode
  have hsc := sendColors_noskip cfg { s1 with lastFrameSentAt := now } false
  rw [hcc, hrt] at hsc
  simp only [renderBody, renderTryBlock, shouldSendFrame, hcc, hrt, hmodeb,
    if_pos hfps, Bool.true_or, Bool.not_true, Bool.false_and, Bool.and_false,
    Bool.not_false, Bool.false_or, Bool.false_eq_true, if_false, ite_false,
    Bool.true_and, if_true, ite_true]
  simp [hsc]

/-- In non-`Forced` (canvas) mode, when the RT and FPS gates pass but the CRC
gate hits, the render body advances the limiter clock to `now` yet performs a
send attempt that transmits nothing. -/
theorem renderBody_canvas_crcskip (cfg : Config) (now : Int) (s1 : State)
    (hmode : cfg.LightingMode ≠ "Forced")
    (hrt : s1.rtActive = true)
    (hfps : (now - s1.lastFrameSentAt) * (fpsClamp cfg.fpsLimit : Int) ≥ 1000)
    (hm : bufferMatches cfg s1)
    (hcrc : (crc32_u8 (fillBytes cfg s1.shutdownRgb s1.forcedRgb false) : Int)
      = s1.lastCRC) :
    renderBody cfg now s1 =
      ({ s1 with lastFrameSentAt := now }, [⟨s1.offForced, false, false, []⟩]) := by
  have hmodeb : (cfg.LightingMode == "Forced") = false := by
    rw [beq_eq_false_iff_ne]; exact hmode
  have hm3 : bufferMatches cfg { s1 with lastFrameSentAt := now } :=
    ⟨hm.1, hm.2.1, hm.2.2⟩
  have hsc := sendColors_skip cfg { s1 with lastFrameSentAt := now } false hm3 hcrc
  rw [hrt] at hsc
  simp only [renderBody, renderTryBlock, shouldSendFrame, hrt, hmodeb,
    if_pos hfps, Bool.false_and, Bool.false_eq_true, if_false, ite_false,
    Bool.not_true]
  simp [hsc]

/-! ## Claim C1 -/

/-- C1 (amended): across every sequence of render ticks, idle-check ticks, and
shutdown events, no UDP send is performed by a render tick or an idle-check
tick while the machine is in `ForcedOff`: `Render` returns before any send
when `_offForced` holds (with `startMode = "Off"` it returns immediately and
unchanged), and `enforceIdleOff` sends its shutdown frame only when
`_offForced` is false.  (A shutdown event, by contrast, may send its black
frame even while `_offForced` is set — see the counterexample.) -/
theorem C1_no_udp_while_forcedOff (cfg : Config) (s : State) :
    (∀ (events : List Event) (ev : Event) (r : SendRec),
        (ev, r) ∈ (runEvents cfg s events).2 → ev ≠ Event.shutdown →
        r.offForcedAtSend = false)
    ∧ (cfg.startMode = "Off" → s.offForced = true →
        ∀ now, Render cfg now s = (s, []))
    ∧ (s.offForced = true → ∀ now, enforceIdleOff cfg now s = (s, [])) := by
  refine ⟨fun events ev r hmem hne =>
    runEvents_offForcedAtSend cfg events s ev r hmem hne, ?_, ?_⟩
  · intro hmode hoff now
    simp [Render, hmode, hoff]
  · intro hoff now
    simp [enforceIdleOff, hoff]

/-- C1 witness: a concrete canvas render tick whose send attempt the theorem
certifies as happening with `_offForced` clear. -/
theorem C1_no_udp_while_forcedOff_witness :
    ((Event.render 1000,
        (⟨false, false, true, [⟨3, [3, 0, 0, 0, 1, 2, 3]⟩]⟩ : SendRec)) ∈
      (runEvents demoConfig demoState [Event.render 1000]).2) ∧
    (⟨false, false, true, [⟨3, [3, 0, 0, 0, 1, 2, 3]⟩]⟩ : SendRec).offForcedAtSend
      = false :=
  ⟨by decide,
   (C1_no_udp_while_forcedOff demoConfig demoState).1 [Event.render 1000]
     (Event.render 1000) ⟨false, false, true, [⟨3, [3, 0, 0, 0, 1, 2, 3]⟩]⟩
     (by decide) (by decide)⟩

/-- C1 counterexample to the claim as stated: with `startMode = "Off"` (the
state `Initialize` leaves the machine in) the machine is in `ForcedOff`, yet a
shutdown event with the default `keepOffOnShutdown`/`sendBlackOnShutdown`
settings still transmits a UDP datagram — `Shutdown` never consults
`_offForced` before sending its black frame. -/
theorem C1_counterexample :
    ∃ r : SendRec,
      (Event.shutdown, r) ∈
        (runEvents { demoConfig with startMode := "Off" }
          { demoState with offForced := true } [Event.shutdown]).2 ∧
      r.offForcedAtSend = true ∧ r.datagrams ≠ [] :=
  ⟨⟨true, true, true, [⟨3, [3, 0, 0, 0, 0, 0, 0]⟩]⟩, by decide, by decide, by decide⟩

/-! ## Claim C2 -/

/-- C2 (amended): for every color buffer of length `n`, a send with change
detection disabled emits the gen-3 chunk sequence; that sequence consists of
`ceil(n / 900)` datagrams; datagram `i` carries the payload
`[0x03][token][0x00][0x00][packetIndex mod 256][chunk i]` over the consecutive
at-most-900-byte slices with packet indices incrementing from 0; and a
2000-byte buffer yields exactly 3 datagrams with chunk lengths 900, 900, 200
and packet-index bytes 0, 1, 2. -/
theorem C2_gen3_chunking (token buf : List Nat) :
    (∀ (cfg : Config) (s : State) (u : Bool),
        (sendColors cfg s u false).2.2 =
          rtChunks cfg.decodedAuthToken (fillBytes cfg s.shutdownRgb s.forcedRgb u) 0)
    ∧ (rtChunks token buf 0).length = (buf.length + 899) / 900
    ∧ (∀ i, 900 * i < buf.length →
        (rtChunks token buf 0).get? i =
          some ⟨3, [0x03] ++ token ++ [0x00, 0x00] ++ [i % 256] ++
            (buf.drop (900 * i)).take 900⟩)
    ∧ (buf.length = 2000 →
        (rtChunks token buf 0).length = 3 ∧
        (buf.take 900).length = 900 ∧
        ((buf.drop 900).take 900).length = 900 ∧
        ((buf.drop 1800).take 900).length = 200 ∧
        (rtChunks token buf 0).get? 0 =
          some ⟨3, [0x03] ++ token ++ [0x00, 0x00] ++ [0] ++ buf.take 900⟩ ∧
        (rtChunks token buf 0).get? 1 =
          some ⟨3, [0x03] ++ token ++ [0x00, 0x00] ++ [1] ++ (buf.drop 900).take 900⟩ ∧
        (rtChunks token buf 0).get? 2 =
          some ⟨3, [0x03] ++ token ++ [0x00, 0x00] ++ [2] ++ (buf.drop 1800).take 900⟩) := by
  have hget : ∀ i, 900 * i < buf.length →
      (rtChunks token buf 0).get? i =
        some ⟨3, [0x03] ++ token ++ [0x00, 0x00] ++ [i % 256] ++
          (buf.drop (900 * i)).take 900⟩ := by
    intro i hi
    rw [rtChunks_get? token i buf 0 hi]
    simp [sendGen3RTFrame]
  refine ⟨?_, rtChunks_length token buf.length buf 0 le_rfl, hget, ?_⟩
  · intro cfg s u
    simp [sendColors, fillRgbBuffer]
  · intro hlen
    have h0 := hget 0 (by omega)
    have h1 := hget 1 (by omega)
    have h2 := hget 2 (by omega)
    simp only [Nat.mul_zero, List.drop_zero] at h0
    refine ⟨?_, ?_, ?_, ?_, ?_, ?_, ?_⟩
    · rw [rtChunks_length token buf.length buf 0 le_rfl, hlen]
    · simp [hlen]
    · simp [hlen]
    · simp [hlen]
    · simpa using h0
    · simpa using h1
    · simpa using h2

/-- C2 witness: the theorem applied to an empty token and a concrete
2000-byte buffer. -/
theorem C2_gen3_chunking_witness :
    (List.replicate 2000 0).length = 2000 ∧
    (rtChunks [] (List.replicate 2000 0) 0).length = 3 ∧
    (rtChunks [] (List.replicate 2000 0) 0).get? 1 =
      some ⟨3, [0x03] ++ ([] : List Nat) ++ [0x00, 0x00] ++ [1] ++
        ((List.replicate 2000 0).drop 900).take 900⟩ :=
  ⟨by rw [List.length_replicate],
   ((C2_gen3_chunking [] (List.replicate 2000 0)).2.2.2
     (by rw [List.length_replicate])).1,
   (C2_gen3_chunking [] (List.replicate 2000 0)).2.2.1 1
     (by rw [List.length_replicate]; omega)⟩

/-- C2 counterexample to the claim as stated: the packet-index byte is stored
into a `Uint8Array`, so it is the index reduced mod 256.  For a buffer needing
more than 256 chunks (230401 zero bytes), datagram 256 carries index byte 0,
not 256. -/
theorem C2_counterexample :
    (rtChunks [] (List.replicate 230401 0) 0).get? 256 ≠
      some ⟨3, [0x03] ++ ([] : List Nat) ++ [0x00, 0x00] ++ [256] ++
        ((List.replicate 230401 0).drop (900 * 256)).take 900⟩ := by
  rw [rtChunks_get? [] 256 (List.replicate 230401 0) 0
    (by rw [List.length_replicate]; omega)]
  generalize ((List.replicate 230401 0).drop (900 * 256)).take 900 = c
  simp [sendGen3RTFrame]

/-! ## Claim C3 -/

/-- C3: building and sending the identical buffer twice in `Canvas` mode, with
no intervening idle transition or buffer reallocation, results in exactly one
transmission: the first change-detecting `sendColors` transmits (the datagram
list is nonempty for a nonempty layout) and records the CRC; the second call
computes the same CRC-32, returns `false`, and sends nothing. -/
theorem C3_canvas_duplicate_skipped (cfg : Config) (s0 : State)
    (_hmode : cfg.LightingMode = "Canvas")
    (hm : bufferMatches cfg s0)
    (hcrc : ((crc32_u8 (fillBytes cfg s0.shutdownRgb s0.forcedRgb false) : Int))
      ≠ s0.lastCRC)
    (hpos : cfg.vLedPositions ≠ []) :
    (sendColors cfg s0 false true).2.1 = true ∧
    (sendColors cfg s0 false true).2.2 ≠ [] ∧
    (sendColors cfg (sendColors cfg s0 false true).1 false true).2.1 = false ∧
    (sendColors cfg (sendColors cfg s0 false true).1 false true).2.2 = [] := by
  have h1 := sendColors_send cfg s0 false hm hcrc
  have hm1 : bufferMatches cfg
      { s0 with lastCRC :=
          (crc32_u8 (fillBytes cfg s0.shutdownRgb s0.forcedRgb false) : Int) } :=
    ⟨hm.1, hm.2.1, hm.2.2⟩
  have h2 := sendColors_skip cfg
    { s0 with lastCRC :=
        (crc32_u8 (fillBytes cfg s0.shutdownRgb s0.forcedRgb false) : Int) }
    false hm1 rfl
  rw [h1]
  refine ⟨rfl, ?_, ?_, ?_⟩
  · exact rtChunks_ne_nil _ _ _ (fillBytes_ne_nil cfg _ _ false hpos)
  · rw [h2]
  · rw [h2]

/-- C3 witness: on the one-LED demo device with an unset checksum cache, the
first canvas send transmits and the immediate duplicate is skipped. -/
theorem C3_canvas_duplicate_skipped_witness :
    demoConfig.LightingMode = "Canvas" ∧
    bufferMatches demoConfig demoState ∧
    ((crc32_u8 (fillBytes demoConfig demoState.shutdownRgb demoState.forcedRgb false)
        : Int) ≠ demoState.lastCRC) ∧
    demoConfig.vLedPositions ≠ [] ∧
    ((sendColors demoConfig demoState false true).2.1 = true ∧
     (sendColors demoConfig demoState false true).2.2 ≠ [] ∧
     (sendColors demoConfig (sendColors demoConfig demoState false true).1
        false true).2.1 = false ∧
     (sendColors demoConfig (sendColors demoConfig demoState false true).1
        false true).2.2 = []) :=
  ⟨rfl, by decide, by decide, by decide,
   C3_canvas_duplicate_skipped demoConfig demoState rfl (by decide) (by decide)
     (by decide)⟩

/-! ## Claim C9 -/

/-- C9: a send with change detection disabled (`allowSkipSame = false` — every
shutdown/idle frame and every forced-color-change frame) always transmits yet
leaves `_lastCRC` unchanged; consequently a subsequent change-detecting send
whose buffer matches the recorded checksum is skipped, even though the bytes
most recently transmitted to the device were different. -/
theorem C9_noskip_leaves_lastCRC (cfg : Config) (s0 : State)
    (hm : bufferMatches cfg s0)
    (hrec : s0.lastCRC =
      (crc32_u8 (fillBytes cfg s0.shutdownRgb s0.forcedRgb false) : Int))
    (_hdiff : fillBytes cfg s0.shutdownRgb s0.forcedRgb true ≠
      fillBytes cfg s0.shutdownRgb s0.forcedRgb false) :
    (sendColors cfg s0 true false).2.1 = true ∧
    (sendColors cfg s0 true false).1.lastCRC = s0.lastCRC ∧
    (sendColors cfg s0 true false).2.2 =
      rtChunks cfg.decodedAuthToken (fillBytes cfg s0.shutdownRgb s0.forcedRgb true) 0 ∧
    (sendColors cfg (sendColors cfg s0 true false).1 false true).2.1 = false ∧
    (sendColors cfg (sendColors cfg s0 true false).1 false true).2.2 = [] := by
  have h1 := sendColors_noskip cfg s0 true
  rw [ensureRgbBuffer_of_matches cfg s0 hm] at h1
  have h2 := sendColors_skip cfg s0 false hm hrec.symm
  rw [h1]
  exact ⟨rfl, rfl, rfl, by rw [h2], by rw [h2]⟩

/-- C9 witness: on the demo device whose checksum cache records the canvas
buffer `[1,2,3]`, a shutdown-color frame `[0,0,0]` is transmitted without
touching `_lastCRC`, and the following canvas send is skipped. -/
theorem C9_noskip_leaves_lastCRC_witness :
    bufferMatches demoConfig
      { demoState with lastCRC := (crc32_u8 [1, 2, 3] : Int) } ∧
    ({ demoState with lastCRC := (crc32_u8 [1, 2, 3] : Int) } : State).lastCRC =
      (crc32_u8 (fillBytes demoConfig (0, 0, 0) (255, 0, 0) false) : Int) ∧
    fillBytes demoConfig (0, 0, 0) (255, 0, 0) true ≠
      fillBytes demoConfig (0, 0, 0) (255, 0, 0) false ∧
    ((sendColors demoConfig { demoState with lastCRC := (crc32_u8 [1, 2, 3] : Int) }
        true false).2.1 = true ∧
     (sendColors demoConfig { demoState with lastCRC := (crc32_u8 [1, 2, 3] : Int) }
        true false).1.lastCRC =
       ({ demoState with lastCRC := (crc32_u8 [1, 2, 3] : Int) } : State).lastCRC ∧
     (sendColors demoConfig { demoState with lastCRC := (crc32_u8 [1, 2, 3] : Int) }
        true false).2.2 =
       rtChunks demoConfig.decodedAuthToken
         (fillBytes demoConfig
           ({ demoState with lastCRC := (crc32_u8 [1, 2, 3] : Int) } : State).shutdownRgb
           ({ demoState with lastCRC := (crc32_u8 [1, 2, 3] : Int) } : State).forcedRgb
           true) 0 ∧
     (sendColors demoConfig
        (sendColors demoConfig
          { demoState with lastCRC := (crc32_u8 [1, 2, 3] : Int) } true false).1
        false true).2.1 = false ∧
     (sendColors demoConfig
        (sendColors demoConfig
          { demoState with lastCRC := (crc32_u8 [1, 2, 3] : Int) } true false).1
        false true).2.2 = []) :=
  ⟨by decide, by decide, by decide,
   C9_noskip_leaves_lastCRC demoConfig
     { demoState with lastCRC := (crc32_u8 [1, 2, 3] : Int) }
     (by decide) (by decide) (by decide)⟩

/-! ## Claim C4 -/

/-- C4: after a forced-color change (the `onforcedColorChanged` hook), the very
next render tick that passes the ForcedOff, real-time-active, and FPS-limiter
gates performs exactly one unconditional frame send — bypassing the CRC gate
even when the stored checksum equals the checksum of the freshly built buffer
(hypothesis `_hcrcMatch`, unused by the send path precisely because
`sendColors` is called with `allowSkipSame = false`) — and then clears the
dirty flag and records the new hex. -/
theorem C4_forced_change_unconditional_send (cfg : Config) (s0 : State) (now : Int)
    (hmode : cfg.LightingMode = "Forced")
    (hstart : cfg.startMode ≠ "Off")
    (hrt : s0.rtActive = true)
    (hfps : (now - s0.lastFrameSentAt) * (fpsClamp cfg.fpsLimit : Int) ≥ 1000)
    (_hcrcMatch : s0.lastCRC =
      (crc32_u8 (fillBytes cfg s0.shutdownRgb (hexToRgb cfg.forcedColor) false) : Int)) :
    (Render cfg now (onforcedColorChanged cfg s0)).2 =
      [⟨false, false, true,
        rtChunks cfg.decodedAuthToken
          (fillBytes cfg s0.shutdownRgb (hexToRgb cfg.forcedColor) false) 0⟩] ∧
    (Render cfg now (onforcedColorChanged cfg s0)).1.forcedDirty = false ∧
    (Render cfg now (onforcedColorChanged cfg s0)).1.lastForcedHex = cfg.forcedColor := by
  have hbne : (cfg.startMode != "Off") = true := by rwa [bne_iff_ne]
  have hren : Render cfg now (onforcedColorChanged cfg s0) =
      renderBody cfg now { onforcedColorChanged cfg s0 with offForced := false } := by
    simp [Render, hbne, onforcedColorChanged]
  have hbod := renderBody_forced_change cfg now
    { onforcedColorChanged cfg s0 with offForced := false } hmode rfl hrt hfps
  rw [hren, hbod]
  refine ⟨?_, rfl, rfl⟩
  rw [sendColors_noskip]
  simp [onforcedColorChanged]

/-- C4 witness: a forced-mode device switching to `#00FF00` whose checksum
cache already records exactly the new buffer's CRC-32, yet the next tick sends. -/
theorem C4_forced_change_unconditional_send_witness :
    forcedDemoConfig.LightingMode = "Forced" ∧
    forcedDemoConfig.startMode ≠ "Off" ∧
    forcedDemoState.rtActive = true ∧
    ((1000 - forcedDemoState.lastFrameSentAt)
      * (fpsClamp forcedDemoConfig.fpsLimit : Int) ≥ 1000) ∧
    forcedDemoState.lastCRC =
      (crc32_u8 (fillBytes forcedDemoConfig forcedDemoState.shutdownRgb
        (hexToRgb forcedDemoConfig.forcedColor) false) : Int) ∧
    (Render forcedDemoConfig 1000
        (onforcedColorChanged forcedDemoConfig forcedDemoState)).2 =
      [⟨false, false, true,
        rtChunks forcedDemoConfig.decodedAuthToken
          (fillBytes forcedDemoConfig forcedDemoState.shutdownRgb
            (hexToRgb forcedDemoConfig.forcedColor) false) 0⟩] :=
  ⟨rfl, by decide, by decide, by decide, by decide,
   (C4_forced_change_unconditional_send forcedDemoConfig forcedDemoState 1000
     rfl (by decide) (by decide) (by decide) (by decide)).1⟩

/-! ## Claim C5 -/

theorem fpsClamp_pos (f : Nat) : 0 < fpsClamp f :=
  lt_of_lt_of_le (by norm_num) (le_max_left 10 _)

/-- C5: the limiter clamps `fpsLimit` into `[10, 120]` (a falsy 0 becomes 45),
sends exactly when the integer millisecond delta is at least
`minIntervalMs = 1000 / limit` (stated over ℚ, where the comparison is exact),
advances the reference timestamp to `now` exactly on ticks it lets through —
including a tick whose send attempt the CRC gate later skips — and leaves the
timestamp untouched on ticks it skips itself. -/
theorem C5_fps_limiter (f : Nat) (now lastSent : Int) (cfg : Config) (s1 : State)
    (now2 : Int) :
    (fpsClamp f = max 10 (min 120 (if f = 0 then 45 else f)))
    ∧ (((now - lastSent : Int) : ℚ) ≥ 1000 / (fpsClamp f : ℚ) →
        shouldSendFrame f now lastSent = (true, now))
    ∧ (((now - lastSent : Int) : ℚ) < 1000 / (fpsClamp f : ℚ) →
        shouldSendFrame f now lastSent = (false, lastSent))
    ∧ (cfg.LightingMode ≠ "Forced" → cfg.startMode ≠ "Off" → s1.rtActive = true →
        ((now2 - s1.lastFrameSentAt : Int) : ℚ) ≥ 1000 / (fpsClamp cfg.fpsLimit : ℚ) →
        bufferMatches cfg s1 →
        (crc32_u8 (fillBytes cfg s1.shutdownRgb s1.forcedRgb false) : Int)
          = s1.lastCRC →
        (Render cfg now2 s1).1.lastFrameSentAt = now2 ∧
        (Render cfg now2 s1).2 = [⟨false, false, false, []⟩]) := by
  have key : ∀ (g : Nat) (a b : Int),
      (((a - b : Int) : ℚ) ≥ 1000 / (fpsClamp g : ℚ)) ↔
      (a - b) * (fpsClamp g : Int) ≥ 1000 := by
    intro g a b
    have hL : (0 : ℚ) < (fpsClamp g : ℚ) := by exact_mod_cast fpsClamp_pos g
    rw [ge_iff_le, div_le_iff₀ hL]
    constructor
    · intro h; exact_mod_cast h
    · intro h; exact_mod_cast h
  refine ⟨rfl, ?_, ?_, ?_⟩
  · intro h
    rw [shouldSendFrame, if_pos ((key f now lastSent).mp h)]
  · intro h
    rw [shouldSendFrame, if_neg]
    intro hc
    exact absurd ((key f now lastSent).mpr hc) (not_le.mpr h)
  · intro hmode hstart hrt hfps hm hcrc
    have hbne : (cfg.startMode != "Off") = true := by rwa [bne_iff_ne]
    have hren : Render cfg now2 s1 =
        renderBody cfg now2 { s1 with offForced := false } := by
      simp [Render, hbne]
    have hbod := renderBody_canvas_crcskip cfg now2 { s1 with offForced := false }
      hmode hrt ((key cfg.fpsLimit now2 s1.lastFrameSentAt).mp hfps)
      ⟨hm.1, hm.2.1, hm.2.2⟩ hcrc
    rw [hren, hbod]
    exact ⟨rfl, rfl⟩

/-- C5 witness: at 45 fps, a 1000ms-old clock passes the limiter (and the clock
advances even though the CRC gate then skips the canvas send), while a 5ms-old
clock is skipped with the clock untouched. -/
theorem C5_fps_limiter_witness :
    (((1000 - 0 : Int) : ℚ) ≥ 1000 / (fpsClamp 45 : ℚ)) ∧
    shouldSendFrame 45 1000 0 = (true, 1000) ∧
    (((5 - 0 : Int) : ℚ) < 1000 / (fpsClamp 45 : ℚ)) ∧
    shouldSendFrame 45 5 0 = (false, 0) ∧
    (Render demoConfig 1000
        { demoState with lastCRC := (crc32_u8 [1, 2, 3] : Int) }).1.lastFrameSentAt
      = 1000 ∧
    (Render demoConfig 1000
        { demoState with lastCRC := (crc32_u8 [1, 2, 3] : Int) }).2 =
      [⟨false, false, false, []⟩] := by
  have h1 : ((1000 - 0 : Int) : ℚ) ≥ 1000 / (fpsClamp 45 : ℚ) := by
    norm_num [fpsClamp]
  have h2 : ((5 - 0 : Int) : ℚ) < 1000 / (fpsClamp 45 : ℚ) := by
    norm_num [fpsClamp]
  have hc := (C5_fps_limiter 45 1000 0 demoConfig
    { demoState with lastCRC := (crc32_u8 [1, 2, 3] : Int) } 1000).2.2.2
    (by decide) (by decide) (by decide)
    (by norm_num [fpsClamp, demoConfig, demoState]) (by decide) (by decide)
  exact ⟨h1, (C5_fps_limiter 45 1000 0 demoConfig demoState 1000).2.1 h1,
    h2, (C5_fps_limiter 45 5 0 demoConfig demoState 1000).2.2.1 h2,
    hc.1, hc.2⟩

/-! ## Claim C6 -/

/-- C6 (amended): on an idle-check tick where more than the cached idle-off
seconds (`max(2, idleOffSeconds || 5)`) have elapsed since the last accepted
frame and the machine is not already `ForcedOff`, provided at least one of the
immediate-pause-off or off-when-idle settings is enabled, the machine emits
exactly one shutdown-color frame (bypassing change detection) and enters
`ForcedOff` with real-time mode cleared; and once `ForcedOff` is set,
idle-check ticks change nothing and send nothing until the machine re-enters
`Active`. -/
theorem C6_idle_timeout_forced_off (cfg : Config) (s : State) (now : Int)
    (hcache : s.cachedIdleOffSeconds = cachedIdleOffSecondsOf cfg.idleOffSeconds)
    (hoff : s.offForced = false)
    (helapsed : now - s.lastFrameMs > (s.cachedIdleOffSeconds : Int) * 1000)
    (henabled : cfg.immediatePauseOff = true ∨ cfg.offWhenIdle = true) :
    ((enforceIdleOff cfg now s).2 =
      [⟨false, true, true,
        rtChunks cfg.decodedAuthToken
          (fillBytes cfg s.shutdownRgb s.forcedRgb true) 0⟩]) ∧
    (enforceIdleOff cfg now s).1.offForced = true ∧
    (enforceIdleOff cfg now s).1.rtActive = false ∧
    (∀ (s2 : State) (now2 : Int), s2.offForced = true →
      enforceIdleOff cfg now2 s2 = (s2, [])) := by
  have h2 : (2 : Nat) ≤ s.cachedIdleOffSeconds := by
    rw [hcache]; exact le_max_left _ _
  have h300 : now - s.lastFrameMs > 300 := by
    have h2k : (2000 : Int) ≤ (s.cachedIdleOffSeconds : Int) * 1000 := by
      have : (2 : Int) ≤ (s.cachedIdleOffSeconds : Int) := by exact_mod_cast h2
      nlinarith
    omega
  have hsc := sendColors_noskip cfg s true
  have hidem : ∀ (s2 : State) (now2 : Int), s2.offForced = true →
      enforceIdleOff cfg now2 s2 = (s2, []) := by
    intro s2 now2 hoff2
    simp [enforceIdleOff, hoff2]
  rcases henabled with hip | hwi
  · refine ⟨?_, ?_, ?_, hidem⟩ <;>
      simp [enforceIdleOff, hip, hoff, h300, hsc]
  · by_cases hip : cfg.immediatePauseOff = true
    · refine ⟨?_, ?_, ?_, hidem⟩ <;>
        simp [enforceIdleOff, hip, hoff, h300, hsc]
    · have hipf : cfg.immediatePauseOff = false := by
        cases h : cfg.immediatePauseOff
        · rfl
        · exact absurd h hip
      refine ⟨?_, ?_, ?_, hidem⟩ <;>
        simp [enforceIdleOff, hipf, hwi, hoff, helapsed, hsc]

/-- C6 witness: the spec's own instance — last accepted frame 6000ms ago,
idle-off 5 seconds — emits one shutdown frame and enters `ForcedOff`. -/
theorem C6_idle_timeout_forced_off_witness :
    demoState.cachedIdleOffSeconds
      = cachedIdleOffSecondsOf demoConfig.idleOffSeconds ∧
    demoState.offForced = false ∧
    (6000 - demoState.lastFrameMs > (demoState.cachedIdleOffSeconds : Int) * 1000) ∧
    ((enforceIdleOff demoConfig 6000 demoState).2 =
      [⟨false, true, true,
        rtChunks demoConfig.decodedAuthToken
          (fillBytes demoConfig demoState.shutdownRgb demoState.forcedRgb true) 0⟩]) ∧
    (enforceIdleOff demoConfig 6000 demoState).1.offForced = true :=
  ⟨by decide, by decide, by decide,
   (C6_idle_timeout_forced_off demoConfig demoState 6000 (by decide) (by decide)
     (by decide) (Or.inl (by decide))).1,
   (C6_idle_timeout_forced_off demoConfig demoState 6000 (by decide) (by decide)
     (by decide) (Or.inl (by decide))).2.1⟩

/-- C6 counterexample to the claim as stated: with both the immediate-pause
and off-when-idle settings disabled, an idle-check tick 6000ms after the last
accepted frame emits nothing and stays out of `ForcedOff`. -/
theorem C6_counterexample :
    (6000 - demoState.lastFrameMs > (demoState.cachedIdleOffSeconds : Int) * 1000) ∧
    demoState.offForced = false ∧
    (enforceIdleOff
      { demoConfig with immediatePauseOff := false, offWhenIdle := false }
      6000 demoState).2 = [] ∧
    (enforceIdleOff
      { demoConfig with immediatePauseOff := false, offWhenIdle := false }
      6000 demoState).1.offForced = false :=
  ⟨by decide, by decide, by decide, by decide⟩

/-! ## Claim C7 -/

/-- `1000` is the only status code the table maps to `"Ok"`. -/
theorem statusCodes_ok_iff (c : Nat) :
    (statusCodes c).getD "Unknown" = "Ok" ↔ c = 1000 := by
  by_cases h : c = 1000
  · subst h; simp [statusCodes]
  · simp only [statusCodes, h, if_false]
    split_ifs <;> simp [h]

/-- C7: the health-check response handler is total (never throws — every
completed request yields some status string); it yields `"Ok"` exactly when
the HTTP status is 200, the body parses, the reported code is 1000 (the only
code mapping to `"Ok"`), and the reported mode is `"rt"`; a non-200 status,
an empty body, or a parse failure all degrade to `"Error"`. -/
theorem C7_health_check (xhr : XhrLedMode) (hready : xhr.readyState = 4) :
    (∃ st, fetchLEDMode xhr = some st) ∧
    (fetchLEDMode xhr = some "Ok" ↔
      (xhr.status = 200 ∧ ∃ p, xhr.response = some (some p) ∧
        p.code = some 1000 ∧ p.mode = some "rt")) ∧
    (xhr.status ≠ 200 → fetchLEDMode xhr = some "Error") ∧
    (xhr.response = some none → fetchLEDMode xhr = some "Error") ∧
    (xhr.response = none → fetchLEDMode xhr = some "Error") := by
  have hne : ¬ (xhr.readyState ≠ 4) := fun h => h hready
  rw [fetchLEDMode, if_neg hne]
  refine ⟨⟨_, rfl⟩, ?_, ?_, ?_, ?_⟩
  · by_cases hst : xhr.status = 200
    · rcases hresp : xhr.response with _ | (_ | p)
      · simp [hst, hresp]
      · simp [hst, hresp]
      · simp only [hst, hresp, if_pos rfl]
        by_cases hmode2 : p.mode = some "rt"
        · rcases hcode : p.code with _ | c
          · simp [hmode2, hcode]
          · simp [hmode2, hcode, statusCodes_ok_iff]
        · simp [hmode2]
    · simp [hst]
  · intro h
    simp [h]
  · intro h
    simp [h]
  · intro h
    simp [h]

/-- C7 witness: a parsed `{code: 1000, mode: "rt"}` body over HTTP 200 yields
`"Ok"`; a 500 response yields `"Error"`. -/
theorem C7_health_check_witness :
    (⟨4, 200, some (some ⟨some 1000, some "rt"⟩)⟩ : XhrLedMode).readyState = 4 ∧
    fetchLEDMode ⟨4, 200, some (some ⟨some 1000, some "rt"⟩)⟩ = some "Ok" ∧
    fetchLEDMode ⟨4, 500, some none⟩ = some "Error" :=
  ⟨rfl,
   (C7_health_check ⟨4, 200, some (some ⟨some 1000, some "rt"⟩)⟩ rfl).2.1.mpr
     ⟨rfl, ⟨some 1000, some "rt"⟩, rfl, rfl, rfl⟩,
   (C7_health_check ⟨4, 500, some none⟩ rfl).2.2.2.1 rfl⟩

/-! ## Claim C8 -/

/-- C8: layout normalization maps LED `i`'s native coordinate to
`round(((value − min) / range) × (10 × scale))` per axis (range substituted by
1 when degenerate, depth read from `z` for 3-D sources and `y` otherwise),
index-aligned with the device's LED order; the reported canvas size is
`(10·xScale + 1, 10·yScale + 1)`; and the concrete instance
`{(0,0), (2,0), (2,2)}` at `xScale = yScale = 1` normalizes to
`(0,0), (10,0), (10,10)` with canvas size `(11, 11)`. -/
theorem C8_layout_normalization (xScale yScale : Nat) (packet : LayoutPacket)
    (xMin xMax yMin yMax : ℚ) :
    ((configureDeviceLayout xScale yScale packet xMin xMax yMin yMax).1 =
      packet.coordinates.map (fun c =>
        (round ((c.x - xMin) / (if xMax - xMin = 0 then 1 else xMax - xMin)
            * (10 * xScale)),
         round (((if packet.source == "3d" then c.z else c.y) - yMin) /
            (if yMax - yMin = 0 then 1 else yMax - yMin) * (10 * yScale)))))
    ∧ (∀ i : Nat,
        ((configureDeviceLayout xScale yScale packet xMin xMax yMin yMax).1).get? i =
          (packet.coordinates.get? i).map (fun c =>
            (round ((c.x - xMin) / (if xMax - xMin = 0 then 1 else xMax - xMin)
                * (10 * xScale)),
             round (((if packet.source == "3d" then c.z else c.y) - yMin) /
                (if yMax - yMin = 0 then 1 else yMax - yMin) * (10 * yScale)))))
    ∧ (configureDeviceLayout xScale yScale packet xMin xMax yMin yMax).2 =
        (10 * xScale + 1, 10 * yScale + 1)
    ∧ fetchDeviceLayoutType 1 1 ⟨"2d", [⟨0, 0, 0⟩, ⟨2, 0, 0⟩, ⟨2, 2, 0⟩]⟩ =
        some ([(0, 0), (10, 0), (10, 10)], (11, 11)) := by
  refine ⟨rfl, ?_, rfl, ?_⟩
  · intro i
    simp [configureDeviceLayout, List.get?_map]
  · simp only [fetchDeviceLayoutType, configureDeviceLayout, List.map, List.foldl,
      if_neg (show ¬("2d" = "3d") from by decide), beq_iff_eq]
    norm_num [round_eq, min_def, max_def]

/-! ## Claim C10 -/

theorem sendColors_gen3 (cfg : Config) (s : State) (u a : Bool) (d : Datagram)
    (hd : d ∈ (sendColors cfg s u a).2.2) :
    d.gen = 3 ∧ ∃ j chunk, d = sendGen3RTFrame cfg.decodedAuthToken j chunk := by
  have hrt : ∀ (buf : List Nat) (idx : Nat),
      d ∈ rtChunks cfg.decodedAuthToken buf idx →
      d.gen = 3 ∧ ∃ j chunk, d = sendGen3RTFrame cfg.decodedAuthToken j chunk :=
    fun buf idx h => rtChunks_mem cfg.decodedAuthToken buf.length buf idx d le_rfl h
  simp only [sendColors, fillRgbBuffer] at hd
  split at hd
  · split at hd
    · simp at hd
    · exact hrt _ 0 hd
  · exact hrt _ 0 hd

theorem renderTryBlock_gen3 (cfg : Config) (cc : Bool) (s3 : State) (r : SendRec)
    (d : Datagram) (hr : r ∈ (renderTryBlock cfg cc s3).2.2) (hd : d ∈ r.datagrams) :
    d.gen = 3 ∧ ∃ j chunk, d = sendGen3RTFrame cfg.decodedAuthToken j chunk := by
  simp only [renderTryBlock] at hr
  split at hr <;> (try split at hr) <;> (try split at hr) <;>
    first
      | (simp only [List.mem_singleton] at hr
         subst hr
         exact sendColors_gen3 cfg _ _ _ d hd)
      | simp at hr

theorem renderBody_gen3 (cfg : Config) (now : Int) (s1 : State) (r : SendRec)
    (d : Datagram) (hr : r ∈ (renderBody cfg now s1).2) (hd : d ∈ r.datagrams) :
    d.gen = 3 ∧ ∃ j chunk, d = sendGen3RTFrame cfg.decodedAuthToken j chunk := by
  simp only [renderBody, apply_ite Prod.snd, ite_self] at hr
  split at hr
  · simp at hr
  · split at hr
    · split at hr
      · simp at hr
      · split at hr
        · simp at hr
        · exact renderTryBlock_gen3 cfg _ _ r d hr hd
    · split at hr
      · simp at hr
      · split at hr
        · simp at hr
        · exact renderTryBlock_gen3 cfg _ _ r d hr hd

theorem Render_gen3 (cfg : Config) (now : Int) (s0 : State) (r : SendRec)
    (d : Datagram) (hr : r ∈ (Render cfg now s0).2) (hd : d ∈ r.datagrams) :
    d.gen = 3 ∧ ∃ j chunk, d = sendGen3RTFrame cfg.decodedAuthToken j chunk := by
  simp only [Render] at hr
  split at hr
  · exact renderBody_gen3 cfg now _ r d hr hd
  · split at hr
    · simp at hr
    · exact renderBody_gen3 cfg now _ r d hr hd

theorem enforceIdleOff_gen3 (cfg : Config) (now : Int) (s : State) (r : SendRec)
    (d : Datagram) (hr : r ∈ (enforceIdleOff cfg now s).2) (hd : d ∈ r.datagrams) :
    d.gen = 3 ∧ ∃ j chunk, d = sendGen3RTFrame cfg.decodedAuthToken j chunk := by
  simp only [enforceIdleOff] at hr
  split at hr <;> (try split at hr) <;>
    first
      | (simp only [List.mem_singleton] at hr
         subst hr
         exact sendColors_gen3 cfg _ _ _ d hd)
      | simp at hr

theorem Shutdown_gen3 (cfg : Config) (s : State) (r : SendRec)
    (d : Datagram) (hr : r ∈ (Shutdown cfg s).2) (hd : d ∈ r.datagrams) :
    d.gen = 3 ∧ ∃ j chunk, d = sendGen3RTFrame cfg.decodedAuthToken j chunk := by
  simp only [Shutdown] at hr
  split at hr
  · simp at hr
  · split at hr
    · simp only [List.mem_singleton] at hr
      subst hr
      exact sendColors_gen3 cfg _ _ _ d hd
    · simp at hr

/-- C10: every UDP datagram any render tick, idle-check tick, or shutdown
event ever emits was built by the generation-3 encoder (`sendGen3RTFrame` on
the session's decoded auth token), and is in the image of neither the
generation-1 nor the generation-2 encoder. -/
theorem C10_gen3_only (cfg : Config) (s : State) (events : List Event)
    (ev : Event) (r : SendRec) (d : Datagram)
    (hmem : (ev, r) ∈ (runEvents cfg s events).2) (hd : d ∈ r.datagrams) :
    d.gen = 3 ∧
    (∃ j chunk, d = sendGen3RTFrame cfg.decodedAuthToken j chunk) ∧
    (∀ (t n rgb : List Nat), d ≠ sendGen1RTFrame t n rgb ∧
      d ≠ sendGen2RTFrame t n rgb) := by
  have main : d.gen = 3 ∧ ∃ j chunk, d = sendGen3RTFrame cfg.decodedAuthToken j chunk := by
    induction events generalizing s with
    | nil => simp [runEvents] at hmem
    | cons e rest ih =>
        simp only [runEvents, List.mem_append, List.mem_map] at hmem
        rcases hmem with ⟨r', hr', heq⟩ | hmem
        · injection heq with he hrr
          subst he
          subst hrr
          cases e with
          | render now => exact Render_gen3 cfg now s r' d hr' hd
          | idleCheck now => exact enforceIdleOff_gen3 cfg now s r' d hr' hd
          | shutdown => exact Shutdown_gen3 cfg s r' d hr' hd
        · exact ih _ hmem
  refine ⟨main.1, main.2, fun t n rgb => ⟨?_, ?_⟩⟩
  · intro h
    have : d.gen = 1 := by rw [h]; rfl
    rw [main.1] at this
    cases this
  · intro h
    have : d.gen = 2 := by rw [h]; rfl
    rw [main.1] at this
    cases this

/-- C10 witness: the datagram a concrete canvas render tick emits is certified
as generation-3. -/
theorem C10_gen3_only_witness :
    ((Event.render 1000,
        (⟨false, false, true, [⟨3, [3, 0, 0, 0, 1, 2, 3]⟩]⟩ : SendRec)) ∈
      (runEvents demoConfig demoState [Event.render 1000]).2) ∧
    ((⟨3, [3, 0, 0, 0, 1, 2, 3]⟩ : Datagram) ∈
      (⟨false, false, true, [⟨3, [3, 0, 0, 0, 1, 2, 3]⟩]⟩ : SendRec).datagrams) ∧
    (⟨3, [3, 0, 0, 0, 1, 2, 3]⟩ : Datagram).gen = 3 ∧
    (∃ j chunk, (⟨3, [3, 0, 0, 0, 1, 2, 3]⟩ : Datagram) =
      sendGen3RTFrame demoConfig.decodedAuthToken j chunk) :=
  ⟨by decide, by decide,
   (C10_gen3_only demoConfig demoState [Event.render 1000] (Event.render 1000)
     ⟨false, false, true, [⟨3, [3, 0, 0, 0, 1, 2, 3]⟩]⟩
     ⟨3, [3, 0, 0, 0, 1, 2, 3]⟩ (by decide) (by decide)).1,
   (C10_gen3_only demoConfig demoState [Event.render 1000] (Event.render 1000)
     ⟨false, false, true, [⟨3, [3, 0, 0, 0, 1, 2, 3]⟩]⟩
     ⟨3, [3, 0, 0, 0, 1, 2, 3]⟩ (by decide) (by decide)).2.1⟩

end Twinkly
